import Mathlib

/-!
Shallow embedding of `src/utilities/smtp_client.py` from the
Odyssey_Management repository: an SMTP notification utility that composes a
multipart email (plain text + HTML + base64 attachments) and sends it over an
SSL connection to a relay.

Python objects are modelled as immutable Lean values with explicit state
passing; Python exceptions become an explicit `Exc` sum carried in results;
the process environment, the filesystem and the SMTP relay are modelled as
explicit parameters.  Python string truthiness (`if not s`) is an emptiness
test; list truthiness is a non-emptiness test; `email.message.Message`
truthiness is `len(self._headers) != 0`.
-/

set_option autoImplicit false

namespace Odyssey

/-- Python exception values that the module can raise or catch, one
constructor per concrete class, each carrying its message string.
`nameError` models Python's `NameError`, raised when an undefined identifier
is evaluated (the carried string is the missing identifier). -/
inductive Exc where
  | nameError (missingIdent : String)
  | fileNotFoundError (msg : String)
  | permissionError (msg : String)
  | valueError (msg : String)
  | smtpEmailException (msg : String)
  | smtpConnectError (msg : String)
  | smtpAuthenticationError (msg : String)
  | smtpSenderRefused (msg : String)
  | smtpOtherException (msg : String)
  | otherException (msg : String)
  deriving DecidableEq, Repr

/- `class SMTPServerConfig(StrEnum)` constants. -/
namespace SMTPServerConfig

def SMTP_SERVER : String := "smtp.gmail.com"

def SMTP_PORT : String := "465"

def SECURITY_CONTRACT : String := "SSL"

end SMTPServerConfig

/- `class MIMESemantics(StrEnum)` constants. -/
namespace MIMESemantics

def MULTIPART_ENTRY : String := "alternative"

def SUBJECT : String := "Subject"

def FROM : String := "From"

def TO : String := "To"

def PLAIN_TEXT : String := "plain"

def HTML : String := "html"

end MIMESemantics

/-- `@dataclass(frozen=True) class EmailMessage`: the caller-supplied message
value.  `attachments` holds `Path` values, modelled as strings. -/
structure EmailMessage where
  destination_email_address : String
  subject : String
  plain_text_body : String
  html_body : String
  attachments : List String
  deriving DecidableEq, Repr

/-- `@dataclass(frozen=True) class SMTPConfig` with its field defaults. -/
structure SMTPConfig where
  sender_email_address : String
  google_smtp_app_passwd : String
  smtp_server : String := SMTPServerConfig.SMTP_SERVER
  smtp_port : String := SMTPServerConfig.SMTP_PORT
  security_contract : String := SMTPServerConfig.SECURITY_CONTRACT
  deriving DecidableEq, Repr

/-- One part attached to the multipart container.  `text subtype body` is
`MIMEText(body, subtype)`; `base headers payload` is a `MIMEBase` part after
`set_payload` / `encoders.encode_base64` / `add_header`, with its full header
list (constructor headers included) and its encoded payload string. -/
inductive MIMEPart where
  | text (subtype : String) (body : String)
  | base (headers : List (String × String)) (payload : String)
  deriving DecidableEq, Repr

/-- `email.mime.multipart.MIMEMultipart`: a header list plus attached parts.
Headers are an ordered multiset: Python's `Message.__setitem__` appends. -/
structure MIMEMultipart where
  subtype : String
  headers : List (String × String)
  parts : List MIMEPart
  deriving DecidableEq, Repr

/-- `MIMEMultipart(_subtype)`: the constructor (via `MIMEBase.__init__`) sets
the `Content-Type` and `MIME-Version` headers, so a fresh multipart already
has two headers. -/
def MIMEMultipart_mk (subtype : String) : MIMEMultipart :=
  { subtype := subtype
    headers := [("Content-Type", "multipart/" ++ subtype), ("MIME-Version", "1.0")]
    parts := [] }

/-- Python truthiness of an `email.message.Message`: `Message.__len__` returns
`len(self._headers)`, so `not self._message` holds only when the header list
is empty. -/
def msgFalsy (m : MIMEMultipart) : Bool :=
  m.headers.length == 0

/-- `self._message[key] = value`: `Message.__setitem__` appends a header. -/
def msgSetItem (m : MIMEMultipart) (k v : String) : MIMEMultipart :=
  { m with headers := m.headers ++ [(k, v)] }

/-- `self._message.attach(part)`: appends to the payload list. -/
def msgAttach (m : MIMEMultipart) (p : MIMEPart) : MIMEMultipart :=
  { m with parts := m.parts ++ [p] }

/-- The process environment: a partial map from variable names to values. -/
def Env : Type := String → Option String

/-- `os.getenv(key, default)`. -/
def os_getenv (env : Env) (key default : String) : String :=
  (env key).getD default

/-- Status of one path in the modelled filesystem: missing, present but not
readable (Python's `open` raises `PermissionError`), or readable with the
given byte content (bytes as naturals below 256). -/
inductive FileStatus where
  | absent
  | unreadable
  | readable (content : List Nat)
  deriving DecidableEq, Repr

/-- The filesystem: a total map from paths to their status. -/
def FS : Type := String → FileStatus

/-- `Path.exists()`: true for any present file, readable or not. -/
def Path_exists (fs : FS) (f : String) : Bool :=
  match fs f with
  | .absent => false
  | _ => true

/-- `open(file, "rb").read()`: succeeds only on a readable file. -/
def open_read (fs : FS) (f : String) : Except Exc (List Nat) :=
  match fs f with
  | .absent => .error (.fileNotFoundError f)
  | .unreadable => .error (.permissionError f)
  | .readable c => .ok c

/-- The mutable state of one `SMTPClient` instance: the bound config and the
single `MIMEMultipart` builder created in `__init__` and reused across calls. -/
structure SMTPClientState where
  _cfg : SMTPConfig
  _message : MIMEMultipart
  deriving DecidableEq, Repr

/-- `SMTPClient.__init__`: reads both environment variables with default `""`
and creates the instance-level multipart builder. -/
def SMTPClient_init (env : Env) : SMTPClientState :=
  { _cfg :=
      { sender_email_address := os_getenv env "SENDER_EMAIL_ADDRESS" ""
        google_smtp_app_passwd := os_getenv env "GOOGLE_SMTP_APP_PASS" "" }
    _message := MIMEMultipart_mk MIMESemantics.MULTIPART_ENTRY }

/-- Body of `SMTPClient.__post_init__` as written in the source.  Two caveats
belong to the claims about it: (1) `SMTPClient` is not a dataclass, so Python
never invokes this hook during construction; (2) its checks are `x is None`,
but both fields are strings produced by `os.getenv(key, "")`, so construction
always passes `some _` here and neither branch can fire. -/
def SMTPClient_post_init
    (sender_email_address google_smtp_app_passwd : Option String) : Option Exc :=
  if sender_email_address = none then
    some (.valueError "SMTPClient: Could Not Find sender_email_address")
  else if google_smtp_app_passwd = none then
    some (.valueError "SMTPClient: Could Not find Google SMTP Server Passwd")
  else
    none

/-- Character `n` of the standard base64 alphabet, for `n < 64`. -/
def b64Char (n : Nat) : Char :=
  if n < 26 then Char.ofNat (65 + n)
  else if n < 52 then Char.ofNat (97 + (n - 26))
  else if n < 62 then Char.ofNat (48 + (n - 52))
  else if n = 62 then Char.ofNat 43
  else Char.ofNat 47

/-- Standard base64 of a byte list (bytes are naturals below 256), with
`=` padding on a trailing group of one or two bytes. -/
def b64EncodeBytes : List Nat → List Char
  | [] => []
  | [a] => [b64Char (a / 4 % 64), b64Char (a % 4 * 16), Char.ofNat 61, Char.ofNat 61]
  | [a, b] =>
      [b64Char (a / 4 % 64), b64Char (a % 4 * 16 + b / 16), b64Char (b % 16 * 4),
        Char.ofNat 61]
  | a :: b :: c :: rest =>
      b64Char (a / 4 % 64) :: b64Char (a % 4 * 16 + b / 16) ::
        b64Char (b % 16 * 4 + c / 64) :: b64Char (c % 64) :: b64EncodeBytes rest

/-- Accumulating splitter for `chunks57`: consumes bytes one at a time,
emitting a chunk whenever it reaches 57 bytes. -/
def chunks57Aux : List Nat → List Nat → List (List Nat)
  | [], acc => if acc.isEmpty then [] else [acc]
  | a :: rest, acc =>
      if (acc ++ [a]).length = 57 then (acc ++ [a]) :: chunks57Aux rest []
      else chunks57Aux rest (acc ++ [a])

/-- Split a byte list into chunks of 57 bytes (57 unencoded bytes become one
76-character base64 line), as `email.base64mime.body_encode` does for the
default maximum line length. -/
def chunks57 (bytes : List Nat) : List (List Nat) :=
  chunks57Aux bytes []

/-- `encoders.encode_base64`'s payload transformation
(`email.base64mime.body_encode` with the default line length): each 57-byte
chunk is base64-encoded onto its own newline-terminated line. -/
def encode_base64_payload (bytes : List Nat) : String :=
  String.join ((chunks57 bytes).map (fun chunk => String.mk (b64EncodeBytes chunk) ++ "\n"))

/-- `SMTPClient._init_MIMEMultipart_email`.  The three emptiness guards come
first; note that the source's `raise RunTimeError(...)` and
`raise RuntTimeError(...)` statements name classes that do not exist
(misspellings of `RuntimeError`), so executing either raise statement makes
Python raise `NameError` for the misspelled identifier before the intended
exception could be built.  When the guards pass, the instance builder is
replaced only if falsy (it never is: the constructor headers keep it truthy),
then Subject/From/To headers are appended and the plain-text part is attached
before the HTML part. -/
def _init_MIMEMultipart_email (st : SMTPClientState)
    (subject destination_email_address plain_text_body html_body : String) :
    Except Exc SMTPClientState :=
  if plain_text_body = "" then
    .error (.nameError "RunTimeError")
  else if html_body = "" then
    .error (.nameError "RuntTimeError")
  else if subject = "" then
    .error (.nameError "RuntTimeError")
  else
    let m0 := if msgFalsy st._message then
        MIMEMultipart_mk MIMESemantics.MULTIPART_ENTRY
      else
        st._message
    let m1 := msgSetItem m0 MIMESemantics.SUBJECT subject
    let m2 := msgSetItem m1 MIMESemantics.FROM st._cfg.sender_email_address
    let m3 := msgSetItem m2 MIMESemantics.TO destination_email_address
    let m4 := msgAttach m3 (.text MIMESemantics.PLAIN_TEXT plain_text_body)
    let m5 := msgAttach m4 (.text MIMESemantics.HTML html_body)
    .ok { st with _message := m5 }

/-- The `MIMEBase("application", "octet-stream")` part built for one
attachment: constructor headers, then `Content-Transfer-Encoding` added by
`encoders.encode_base64`, then the source's `add_header("Content", ...)`
with its f-string value (note the header field name is `Content`, not
`Content-Disposition`). -/
def mkAttachmentPart (file : String) (bytes : List Nat) : MIMEPart :=
  .base
    [("Content-Type", "application/octet-stream"), ("MIME-Version", "1.0"),
      ("Content-Transfer-Encoding", "base64"),
      ("Content", "attachment; filename = " ++ file)]
    (encode_base64_payload bytes)

/-- `SMTPClient._add_attachments`: for each path in order, `Path.exists` is
checked (raising `FileNotFoundError` with the source's message if absent;
the `continue` after the raise is unreachable), the file is opened and read
(an unreadable file makes `open` raise `PermissionError`), and the encoded
part is attached to the instance builder.  Returns the state as mutated so
far together with the raised exception, if any. -/
def _add_attachments (fs : FS) (st : SMTPClientState) :
    List String → SMTPClientState × Option Exc
  | [] => (st, none)
  | file :: rest =>
    if !(Path_exists fs file) then
      (st, some (.fileNotFoundError ("Could not find file: " ++ file)))
    else
      match open_read fs file with
      | .error e => (st, some e)
      | .ok bytes =>
          _add_attachments fs
            { st with _message := msgAttach st._message (mkAttachmentPart file bytes) } rest

/-- Behaviour of the SMTP relay as seen through `smtplib.SMTP_SSL`:
`connect host port` is the exception (if any) raised while opening the SSL
connection, `login user password` the exception (if any) raised by
`smtp_server.login`. -/
structure Relay where
  connect : String → String → Option Exc
  login : String → String → Option Exc

/-- Which `except` branch of `send_email` caught an exception (each branch
prints a distinct classification message). -/
inductive Classified where
  | connectError
  | authError
  | senderRefused
  | smtpError
  | unknownError
  deriving DecidableEq, Repr

/-- The source's `except` chain in order: `smtplib.SMTPConnectError`,
`smtplib.SMTPAuthenticationError`, `smtplib.SMTPSenderRefused`,
`smtplib.SMTPException`, then bare `Exception`. -/
def classifyCaught : Exc → Classified
  | .smtpConnectError _ => .connectError
  | .smtpAuthenticationError _ => .authError
  | .smtpSenderRefused _ => .senderRefused
  | .smtpOtherException _ => .smtpError
  | _ => .unknownError

/-- Everything observable about one `SMTPClient.send_email` call: the
exception propagated to the caller (if any), the Python return value when the
call returns normally, the client state afterwards, the connection and login
calls made on the relay (with their arguments), the `sendmail` transmissions
performed (sender, recipient, serialized mail), and which `except` branch
fired, if any. -/
structure SendResult where
  raised : Option Exc
  retVal : Option Bool
  state : SMTPClientState
  connectCalls : List (String × String)
  loginCalls : List (String × String)
  transmissions : List (String × String × String)
  caught : Option Classified
  deriving DecidableEq, Repr

/-- `SMTPClient.send_email(email_contents)`.  A falsy argument (only `None`
for a frozen dataclass parameter) raises `SMTPEmailException` at once.
Composition and attachment processing run before the `try` block, so their
exceptions propagate to the caller with no relay interaction.  Inside the
`try` block the SSL connection is opened and `login` is called with the
configured credentials; the `sendmail` call then evaluates the names
`receiver_email` and `message`, neither of which is defined in the function,
so `NameError` is raised before any transmission and the bare `except
Exception` branch catches it.  No code path executes a `return` statement,
so a normal return always produces Python `None`. -/
def send_email (fs : FS) (relay : Relay) (st : SMTPClientState)
    (email_contents : Option EmailMessage) : SendResult :=
  match email_contents with
  | none =>
      { raised := some (.smtpEmailException "Must Specify Message Contents for Mail Transfer")
        retVal := none, state := st, connectCalls := [], loginCalls := []
        transmissions := [], caught := none }
  | some ec =>
    match _init_MIMEMultipart_email st ec.subject ec.destination_email_address
        ec.plain_text_body ec.html_body with
    | .error e =>
        { raised := some e, retVal := none, state := st, connectCalls := []
          loginCalls := [], transmissions := [], caught := none }
    | .ok st1 =>
      match (if ec.attachments.isEmpty then (st1, none)
          else _add_attachments fs st1 ec.attachments) with
      | (st2, some e) =>
          { raised := some e, retVal := none, state := st2, connectCalls := []
            loginCalls := [], transmissions := [], caught := none }
      | (st2, none) =>
        match relay.connect st2._cfg.smtp_server st2._cfg.smtp_port with
        | some e =>
            { raised := none, retVal := none, state := st2
              connectCalls := [(st2._cfg.smtp_server, st2._cfg.smtp_port)]
              loginCalls := [], transmissions := []
              caught := some (classifyCaught e) }
        | none =>
          match relay.login st2._cfg.sender_email_address st2._cfg.google_smtp_app_passwd with
          | some e =>
              { raised := none, retVal := none, state := st2
                connectCalls := [(st2._cfg.smtp_server, st2._cfg.smtp_port)]
                loginCalls := [(st2._cfg.sender_email_address, st2._cfg.google_smtp_app_passwd)]
                transmissions := [], caught := some (classifyCaught e) }
          | none =>
              { raised := none, retVal := none, state := st2
                connectCalls := [(st2._cfg.smtp_server, st2._cfg.smtp_port)]
                loginCalls := [(st2._cfg.sender_email_address, st2._cfg.google_smtp_app_passwd)]
                transmissions := []
                caught := some (classifyCaught (.nameError "receiver_email")) }

/-- State of one `EmailClient` facade instance: the owned `SMTPClient`. -/
structure EmailClientState where
  _client : SMTPClientState
  deriving DecidableEq, Repr

/-- `EmailClient.__init__`: constructs the owned `SMTPClient`. -/
def EmailClient_init (env : Env) : EmailClientState :=
  { _client := SMTPClient_init env }

/-- One `EmailClient.send_email` call: what the delegated `SMTPClient` call
produced, and what the facade itself gives back to its caller. -/
structure FacadeResult where
  raised : Option Exc
  retVal : Option Bool
  state : EmailClientState
  delegated : SendResult
  deriving DecidableEq, Repr

/-- `EmailClient.send_email(email_message)`: calls the owned client and
discards the call's value — the method body has no `return` statement, so
when the delegated call returns normally the facade returns Python `None`;
an exception raised by the delegate propagates through unchanged. -/
def EmailClient_send_email (fs : FS) (relay : Relay) (st : EmailClientState)
    (email_message : Option EmailMessage) : FacadeResult :=
  let r := send_email fs relay st._client email_message
  { raised := r.raised, retVal := none, state := { _client := r.state }, delegated := r }

/- Concrete fixtures used by the theorems below. -/

/-- An environment supplying both configuration variables. -/
def envGood : Env := fun key =>
  if key = "SENDER_EMAIL_ADDRESS" then some "sender@example.com"
  else if key = "GOOGLE_SMTP_APP_PASS" then some "app-pass"
  else none

/-- An environment in which both configuration variables are set but empty. -/
def envBothEmpty : Env := fun key =>
  if key = "SENDER_EMAIL_ADDRESS" then some ""
  else if key = "GOOGLE_SMTP_APP_PASS" then some ""
  else none

/-- A filesystem with no files. -/
def fsEmpty : FS := fun _ => .absent

/-- A filesystem holding one readable file `report.txt` with bytes of the
text `hi`. -/
def fsReport : FS := fun f =>
  if f = "report.txt" then .readable [104, 105] else .absent

/-- A filesystem holding one existing but unreadable file `secret.txt`. -/
def fsSecret : FS := fun f =>
  if f = "secret.txt" then .unreadable else .absent

/-- A relay that accepts the connection and the authentication. -/
def relayOK : Relay :=
  { connect := fun _ _ => none, login := fun _ _ => none }

/-- A relay that accepts the connection but rejects authentication. -/
def relayAuthReject : Relay :=
  { connect := fun _ _ => none
    login := fun _ _ => some (.smtpAuthenticationError "Username and Password not accepted") }

/-- The spec's scenario message: recipient `a@example.com`, subject `Hi`,
plain `hello`, html `<p>hello</p>`, no attachments. -/
def scenarioMsg : EmailMessage :=
  { destination_email_address := "a@example.com", subject := "Hi"
    plain_text_body := "hello", html_body := "<p>hello</p>", attachments := [] }

/-- The scenario message with an empty plain-text body. -/
def msgEmptyPlain : EmailMessage := { scenarioMsg with plain_text_body := "" }

/-- The scenario message with an empty HTML body. -/
def msgEmptyHtml : EmailMessage := { scenarioMsg with html_body := "" }

/-- The scenario message with an empty subject. -/
def msgEmptySubject : EmailMessage := { scenarioMsg with subject := "" }

/-- The scenario message with one readable attachment. -/
def msgWithReport : EmailMessage := { scenarioMsg with attachments := ["report.txt"] }

/-- The scenario message with one existing-but-unreadable attachment. -/
def msgWithSecret : EmailMessage := { scenarioMsg with attachments := ["secret.txt"] }

/-- The scenario message with one nonexistent attachment. -/
def msgWithMissing : EmailMessage := { scenarioMsg with attachments := ["missing.txt"] }

/-- The scenario send against the accepting relay, from a fresh client. -/
def sendScenarioAccepting : SendResult :=
  send_email fsEmpty relayOK (SMTPClient_init envGood) (some scenarioMsg)

/-- The scenario send against the authentication-rejecting relay. -/
def sendScenarioAuthReject : SendResult :=
  send_email fsEmpty relayAuthReject (SMTPClient_init envGood) (some scenarioMsg)

/-- The client state after sending the scenario message twice with the same
client instance. -/
def sendTwiceState : SMTPClientState :=
  (send_email fsEmpty relayOK sendScenarioAccepting.state (some scenarioMsg)).state

/-- The send of the message carrying the readable attachment. -/
def sendWithReport : SendResult :=
  send_email fsReport relayOK (SMTPClient_init envGood) (some msgWithReport)

/-- The send of the message carrying the unreadable attachment. -/
def sendWithSecret : SendResult :=
  send_email fsSecret relayOK (SMTPClient_init envGood) (some msgWithSecret)

/-- Whether a propagated exception is a `FileNotFoundError`. -/
def isFileNotFoundRaise : Option Exc → Bool
  | some (.fileNotFoundError _) => true
  | _ => false

/-- Composing on a freshly constructed client succeeds for non-empty subject,
plain-text body and HTML body, and produces the multipart with Subject/From/To
appended after the constructor headers and exactly the two body parts,
plain text first and HTML second. -/
theorem init_fresh_ok (env : Env) (subject dest plain html : String)
    (hs : subject ≠ "") (hp : plain ≠ "") (hh : html ≠ "") :
    _init_MIMEMultipart_email (SMTPClient_init env) subject dest plain html =
      .ok
        { _cfg := (SMTPClient_init env)._cfg
          _message :=
            { subtype := "alternative"
              headers := [("Content-Type", "multipart/alternative"), ("MIME-Version", "1.0"),
                ("Subject", subject),
                ("From", (SMTPClient_init env)._cfg.sender_email_address),
                ("To", dest)]
              parts := [.text "plain" plain, .text "html" html] } } := by
  simp [_init_MIMEMultipart_email, hp, hh, hs, SMTPClient_init, MIMEMultipart_mk,
    msgFalsy, msgSetItem, msgAttach, MIMESemantics.MULTIPART_ENTRY, MIMESemantics.SUBJECT,
    MIMESemantics.FROM, MIMESemantics.TO, MIMESemantics.PLAIN_TEXT, MIMESemantics.HTML]

/-- Running `_add_attachments` on a file list that contains an absent path
and no unreadable path raises `FileNotFoundError` for one of the listed
paths. -/
theorem _add_attachments_absent_raises (fs : FS) (files : List String)
    (habs : ∃ f ∈ files, fs f = .absent)
    (hnor : ∀ f ∈ files, fs f ≠ .unreadable) (st : SMTPClientState) :
    ∃ f ∈ files,
      (_add_attachments fs st files).2
        = some (.fileNotFoundError ("Could not find file: " ++ f)) := by
  induction files generalizing st with
  | nil => simp at habs
  | cons a rest ih =>
    by_cases ha : fs a = .absent
    · refine ⟨a, by simp, ?_⟩
      simp [_add_attachments, Path_exists, ha]
    · have hna : fs a ≠ .unreadable := hnor a (by simp)
      cases hfsa : fs a with
      | absent => exact absurd hfsa ha
      | unreadable => exact absurd hfsa hna
      | readable c =>
        obtain ⟨f, hf, hfa⟩ := habs
        have habs2 : ∃ f ∈ rest, fs f = .absent := by
          rcases List.mem_cons.mp hf with rfl | hf2
          · exact absurd hfa ha
          · exact ⟨f, hf2, hfa⟩
        have hnor2 : ∀ f ∈ rest, fs f ≠ .unreadable := fun g hg =>
          hnor g (List.mem_cons_of_mem a hg)
        obtain ⟨g, hg, hout⟩ := ih habs2
          (fun g hg => hnor g (List.mem_cons_of_mem a hg)) _
        refine ⟨g, List.mem_cons_of_mem a hg, ?_⟩
        simpa [_add_attachments, Path_exists, hfsa, open_read] using hout

/-- C1: on the spec's scenario message (recipient `a@example.com`, subject
`Hi`, plain `hello`, html `<p>hello</p>`, no attachments) with a relay that
accepts the connection and the authentication, `send_email` composes the
mail, opens the connection to the configured host and port and logs in with
the configured credentials, but it transmits nothing — the `sendmail` call
evaluates the undefined names `receiver_email` / `message`, raising
`NameError`, which the bare `except Exception` branch catches — and the call
returns Python `None`, never a `Sent` outcome. -/
theorem send_accepting_relay_no_transmission_returns_none :
    sendScenarioAccepting.connectCalls = [("smtp.gmail.com", "465")]
    ∧ sendScenarioAccepting.loginCalls = [("sender@example.com", "app-pass")]
    ∧ sendScenarioAccepting.state._message.parts =
        [.text "plain" "hello", .text "html" "<p>hello</p>"]
    ∧ sendScenarioAccepting.transmissions = []
    ∧ sendScenarioAccepting.caught = some .unknownError
    ∧ sendScenarioAccepting.retVal = none
    ∧ sendScenarioAccepting.raised = none := by
  decide

/-- C2: on the spec's scenario message with a relay that rejects
authentication, `send_email` does catch and classify the error in the
authentication `except` branch and does not raise, but the caller receives
Python `None` — an unexplained empty value, not a `Failed(AuthenticationError)`
outcome: no code path of `send_email` executes a `return` statement. -/
theorem send_auth_rejection_classified_but_returns_none :
    sendScenarioAuthReject.caught = some .authError
    ∧ sendScenarioAuthReject.raised = none
    ∧ sendScenarioAuthReject.retVal = none
    ∧ sendScenarioAuthReject.transmissions = [] := by
  decide

/-- C3: for every environment and every message fields with non-empty
subject, plain-text body and HTML body, composition on a freshly constructed
client succeeds and yields the Subject/From/To headers and exactly two body
parts in order: the plain-text part attached first, the HTML part second. -/
theorem compose_wellformed_two_parts (env : Env)
    (subject dest plain html : String)
    (hs : subject ≠ "") (hp : plain ≠ "") (hh : html ≠ "") :
    _init_MIMEMultipart_email (SMTPClient_init env) subject dest plain html =
      .ok
        { _cfg := (SMTPClient_init env)._cfg
          _message :=
            { subtype := "alternative"
              headers := [("Content-Type", "multipart/alternative"), ("MIME-Version", "1.0"),
                ("Subject", subject),
                ("From", (SMTPClient_init env)._cfg.sender_email_address),
                ("To", dest)]
              parts := [.text "plain" plain, .text "html" html] } } :=
  init_fresh_ok env subject dest plain html hs hp hh

/-- Witness for C3 at the spec's scenario values. -/
theorem compose_wellformed_two_parts_witness :
    (("Hi" : String) ≠ "" ∧ ("hello" : String) ≠ "" ∧ ("<p>hello</p>" : String) ≠ "")
    ∧ _init_MIMEMultipart_email (SMTPClient_init envGood) "Hi" "a@example.com" "hello"
        "<p>hello</p>" =
      .ok
        { _cfg := (SMTPClient_init envGood)._cfg
          _message :=
            { subtype := "alternative"
              headers := [("Content-Type", "multipart/alternative"), ("MIME-Version", "1.0"),
                ("Subject", "Hi"),
                ("From", (SMTPClient_init envGood)._cfg.sender_email_address),
                ("To", "a@example.com")]
              parts := [.text "plain" "hello", .text "html" "<p>hello</p>"] } } :=
  ⟨⟨by decide, by decide, by decide⟩,
    compose_wellformed_two_parts envGood "Hi" "a@example.com" "hello" "<p>hello</p>"
      (by decide) (by decide) (by decide)⟩

/-- C4: a message with an empty plain-text body, HTML body or subject makes
`send_email` raise before any connection attempt, but the exception is a
`NameError` for the misspelled identifier `RunTimeError` / `RuntTimeError`
(the intended `RuntimeError` class name is typo-ed at all three raise sites),
not a validation-error class. -/
theorem empty_fields_raise_misspelled_runtime_error :
    ((send_email fsEmpty relayOK (SMTPClient_init envGood) (some msgEmptyPlain)).raised
        = some (.nameError "RunTimeError")
      ∧ (send_email fsEmpty relayOK (SMTPClient_init envGood) (some msgEmptyPlain)).connectCalls
        = [])
    ∧ ((send_email fsEmpty relayOK (SMTPClient_init envGood) (some msgEmptyHtml)).raised
        = some (.nameError "RuntTimeError")
      ∧ (send_email fsEmpty relayOK (SMTPClient_init envGood) (some msgEmptyHtml)).connectCalls
        = [])
    ∧ ((send_email fsEmpty relayOK (SMTPClient_init envGood) (some msgEmptySubject)).raised
        = some (.nameError "RuntTimeError")
      ∧ (send_email fsEmpty relayOK (SMTPClient_init envGood) (some msgEmptySubject)).connectCalls
        = []) := by
  decide

/-- C5 (amended): for every well-formed message whose attachment list
contains a nonexistent path and no existing-but-unreadable path, `send_email`
raises `FileNotFoundError` for one of the listed paths before any connection
attempt. -/
theorem send_absent_attachment_raises_fileNotFound (env : Env) (fs : FS) (relay : Relay)
    (m : EmailMessage)
    (hs : m.subject ≠ "") (hp : m.plain_text_body ≠ "") (hh : m.html_body ≠ "")
    (habs : ∃ f ∈ m.attachments, fs f = .absent)
    (hnor : ∀ f ∈ m.attachments, fs f ≠ .unreadable) :
    (∃ f ∈ m.attachments,
      (send_email fs relay (SMTPClient_init env) (some m)).raised
        = some (.fileNotFoundError ("Could not find file: " ++ f)))
    ∧ (send_email fs relay (SMTPClient_init env) (some m)).connectCalls = [] := by
  have hinit := init_fresh_ok env m.subject m.destination_email_address
    m.plain_text_body m.html_body hs hp hh
  have hne : m.attachments.isEmpty = false := by
    obtain ⟨f, hf, _⟩ := habs
    cases hatt : m.attachments with
    | nil => rw [hatt] at hf; simp at hf
    | cons a l => simp
  obtain ⟨f, hf, hout⟩ := _add_attachments_absent_raises fs m.attachments habs hnor
    { _cfg := (SMTPClient_init env)._cfg
      _message :=
        { subtype := "alternative"
          headers := [("Content-Type", "multipart/alternative"), ("MIME-Version", "1.0"),
            ("Subject", m.subject),
            ("From", (SMTPClient_init env)._cfg.sender_email_address),
            ("To", m.destination_email_address)]
          parts := [.text "plain" m.plain_text_body, .text "html" m.html_body] } }
  rcases hadd : _add_attachments fs
      { _cfg := (SMTPClient_init env)._cfg
        _message :=
          { subtype := "alternative"
            headers := [("Content-Type", "multipart/alternative"), ("MIME-Version", "1.0"),
              ("Subject", m.subject),
              ("From", (SMTPClient_init env)._cfg.sender_email_address),
              ("To", m.destination_email_address)]
            parts := [.text "plain" m.plain_text_body, .text "html" m.html_body] } }
      m.attachments with ⟨st2, o⟩
  rw [hadd] at hout
  simp only at hout
  subst hout
  refine ⟨⟨f, hf, ?_⟩, ?_⟩
  · simp [send_email, hinit, hne, hadd]
  · simp [send_email, hinit, hne, hadd]

/-- Witness for C5 (amended) at a message with one nonexistent attachment. -/
theorem send_absent_attachment_raises_fileNotFound_witness :
    ((∃ f ∈ msgWithMissing.attachments, fsEmpty f = FileStatus.absent)
      ∧ ∀ f ∈ msgWithMissing.attachments, fsEmpty f ≠ FileStatus.unreadable)
    ∧ ((∃ f ∈ msgWithMissing.attachments,
        (send_email fsEmpty relayOK (SMTPClient_init envGood) (some msgWithMissing)).raised
          = some (.fileNotFoundError ("Could not find file: " ++ f)))
      ∧ (send_email fsEmpty relayOK (SMTPClient_init envGood)
          (some msgWithMissing)).connectCalls = []) :=
  ⟨⟨by decide, by decide⟩,
    send_absent_attachment_raises_fileNotFound envGood fsEmpty relayOK msgWithMissing
      (by decide) (by decide) (by decide) (by decide) (by decide)⟩

/-- C5 counterexample to the claim as stated: an attachment path that exists
but is not readable does not produce `FileNotFoundError` — the `exists` check
passes and `open` raises `PermissionError` instead (still before any
connection attempt). -/
theorem unreadable_attachment_raises_permissionError :
    sendWithSecret.raised = some (.permissionError "secret.txt")
    ∧ isFileNotFoundRaise sendWithSecret.raised = false
    ∧ sendWithSecret.connectCalls = [] := by
  decide

/-- C6: constructing the client with both environment variables set to the
empty string succeeds and yields a client whose credentials are both empty;
no error is raised.  The source's validation hook cannot reject this:
`SMTPClient` is not a dataclass, so `__post_init__` is never invoked, and
even its body accepts the values because `os.getenv(key, "")` never yields
`None` and the checks test `is None`, not emptiness. -/
theorem construct_empty_env_succeeds_no_error :
    (SMTPClient_init envBothEmpty)._cfg.sender_email_address = ""
    ∧ (SMTPClient_init envBothEmpty)._cfg.google_smtp_app_passwd = ""
    ∧ SMTPClient_post_init (some "") (some "") = none := by
  decide

/-- C7: for every filesystem, relay, facade state and argument, the facade's
`send_email` returns Python `None` — its body calls the owned client and
discards the delegated call's value (there is no `return` statement), so no
`Sent`/`Failed` outcome is ever propagated to the caller; only the raised
exception (if any) and the state change pass through. -/
theorem facade_always_returns_none (fs : FS) (relay : Relay) (st : EmailClientState)
    (email_message : Option EmailMessage) :
    (EmailClient_send_email fs relay st email_message).delegated
        = send_email fs relay st._client email_message
    ∧ (EmailClient_send_email fs relay st email_message).retVal = none :=
  ⟨rfl, rfl⟩

/-- C8: sending the spec's scenario message twice with the same client does
not compose a fresh structure per call: the single `MIMEMultipart` builder
created in `__init__` is reused (its constructor headers keep it truthy, so
the `if not self._message` reset never fires), and after the second send the
composed structure holds four body parts and duplicated Subject/From/To
headers. -/
theorem second_send_accumulates_in_shared_builder :
    sendScenarioAccepting.state._message.parts =
      [.text "plain" "hello", .text "html" "<p>hello</p>"]
    ∧ sendTwiceState._message.parts =
      [.text "plain" "hello", .text "html" "<p>hello</p>",
        .text "plain" "hello", .text "html" "<p>hello</p>"]
    ∧ (sendTwiceState._message.headers.filter (fun kv => kv.1 == "Subject")).length = 2
    ∧ (sendScenarioAccepting.state._message.headers.filter
        (fun kv => kv.1 == "Subject")).length = 1 := by
  decide

/-- C9: composing a message with one readable attachment reads the file's
bytes, base64-encodes them into an `application/octet-stream` part with a
`Content-Transfer-Encoding: base64` header — but the disposition header the
source adds is named `Content`, not the standard `Content-Disposition`
(the field name in `add_header("Content", ...)` is a typo the spec's open
question points at). -/
theorem attachment_part_header_named_Content :
    sendWithReport.state._message.parts =
      [.text "plain" "hello", .text "html" "<p>hello</p>",
        .base
          [("Content-Type", "application/octet-stream"), ("MIME-Version", "1.0"),
            ("Content-Transfer-Encoding", "base64"),
            ("Content", "attachment; filename = report.txt")]
          "aGk=\n"]
    ∧ encode_base64_payload [104, 105] = "aGk=\n" := by
  decide

/-- C10: for every filesystem, relay and client state, calling `send_email`
with `None` raises `SMTPEmailException` with the source's message, before any
composition, attachment processing or relay interaction, and leaves the
client state unchanged. -/
theorem send_none_raises_smtpEmailException (fs : FS) (relay : Relay)
    (st : SMTPClientState) :
    send_email fs relay st none =
      { raised := some (.smtpEmailException "Must Specify Message Contents for Mail Transfer")
        retVal := none, state := st, connectCalls := [], loginCalls := []
        transmissions := [], caught := none } :=
  rfl

end Odyssey
